import Mathlib

/-!
Shallow embedding of the single-file website security scanner
(src/security_scraper.py) together with proofs of its specification
claims.  The HTTP transport is abstracted as a function from URLs to
optional responses (None models a requests-level connection failure or
timeout); HTML parsing is abstracted by a `Soup` structure recording
exactly the document features the detectors inspect.  Each regular
expression of the source is translated into an explicit matcher over
character lists with Python `re.search` (leftmost occurrence) semantics.
-/

/-- A script or link element as seen by `check_outdated_software`:
its `src` and `href` attributes (absent attribute = `none`). -/
structure ResElem where
  src : Option String
  href : Option String
deriving DecidableEq

/-- Result of parsing an HTML document with BeautifulSoup, recording the
features the detectors inspect: the title text, the text nodes, the direct
string contents of `pre` elements, the first `meta name="generator"` tag
(inner option: its `content` attribute, which may be absent), the full
rendered text (`soup.get_text()`), and the script/link elements in
document order. -/
structure Soup where
  title : Option String
  strings : List String
  preStrings : List String
  meta_generator : Option (Option String)
  text : String
  resources : List ResElem
deriving DecidableEq

/-- An HTTP response: status code and the parse of its body text. -/
structure Response where
  status_code : Nat
  body : Soup
deriving DecidableEq

/-- The abstract HTTP transport: what `requests.get` returns for each URL,
`none` modelling a raised connection/timeout exception. -/
def Transport : Type := String → Option Response

/- ### Regex matcher infrastructure -/

/-- A matcher tries to match a pattern at the start of the input,
returning the matched characters and the rest on success. -/
def Matcher : Type := List Char → Option (List Char × List Char)

/-- Case-insensitive literal matcher: `pat` must be given lowercased; each
input character is compared through `Char.toLower`.  Returns the consumed
original characters. -/
def matchLitCI : List Char → List Char → Option (List Char × List Char)
  | [], l => some ([], l)
  | _ :: _, [] => none
  | p :: ps, c :: cs =>
    if c.toLower = p then
      match matchLitCI ps cs with
      | some (m, r) => some (c :: m, r)
      | none => none
    else none

/-- Case-insensitive literal matcher from a lowercase string literal. -/
def litCI (s : String) : Matcher := matchLitCI s.data

/-- Sequencing of matchers: both in order, matched texts concatenated. -/
def mseq (m1 m2 : Matcher) : Matcher := fun l =>
  match m1 l with
  | some (a, r) =>
    match m2 r with
    | some (b, r2) => some (a ++ b, r2)
    | none => none
  | none => none

/-- One-or-more decimal digits, greedy, as in the regex class `\d+`. -/
def matchNum : Matcher := fun l =>
  match l.span Char.isDigit with
  | (ds, r) => if ds.isEmpty then none else some (ds, r)

/-- Python's `\s` whitespace class (ASCII part). -/
def isPyWs (c : Char) : Bool :=
  c = ' ' || c = '\t' || c = '\n' || c = Char.ofNat 11 || c = Char.ofNat 12 || c = '\r'

/-- One-or-more whitespace characters, greedy, as in the regex `\s+`. -/
def matchWs : Matcher := fun l =>
  match l.span isPyWs with
  | (ws, r) => if ws.isEmpty then none else some (ws, r)

/-- A dot followed by digits, as in the regex `\.\d+`. -/
def matchDotNum : Matcher := fun l =>
  match l with
  | '.' :: rest =>
    match matchNum rest with
    | some (ds, r) => some ('.' :: ds, r)
    | none => none
  | _ => none

/-- Greedy optional `(\.\d+)?`: consume a dot-digits group if present. -/
def matchOptDotNum (l : List Char) : List Char × List Char :=
  match matchDotNum l with
  | some p => p
  | none => ([], l)

/-- The version sub-pattern `\d+\.\d+(\.\d+)?(\.\d+)?` of the powered-by
and generic version patterns: two to four dot-separated numeric
components.  Greedy matching is exact here because a digit run can never
be followed by a digit and the optional groups start with a dot. -/
def matchVersion24 : Matcher := fun l =>
  match matchNum l with
  | none => none
  | some (a, r1) =>
    match matchDotNum r1 with
    | none => none
    | some (b, r2) =>
      let p3 := matchOptDotNum r2
      let p4 := matchOptDotNum p3.2
      some (a ++ b ++ p3.1 ++ p4.1, p4.2)

/-- The version sub-pattern `\d+\.\d+(\.\d+)?` of the apache and the
resource `ver=` patterns: two to three dot-separated numeric components. -/
def matchVersion23 : Matcher := fun l =>
  match matchNum l with
  | none => none
  | some (a, r1) =>
    match matchDotNum r1 with
    | none => none
    | some (b, r2) =>
      let p3 := matchOptDotNum r2
      some (a ++ b ++ p3.1, p3.2)

/-- The alternation `(wordpress|joomla|drupal|magento)`.  The four
alternatives start with distinct letters, so at most one can match at a
given position and first-success selection is faithful. -/
def matchCms : Matcher := fun l =>
  match matchLitCI "wordpress".data l with
  | some p => some p
  | none =>
    match matchLitCI "joomla".data l with
    | some p => some p
    | none =>
      match matchLitCI "drupal".data l with
      | some p => some p
      | none => matchLitCI "magento".data l

/-- The tail `v?(\d+\.\d+(\.\d+)?(\.\d+)?)` of the powered-by pattern.
If the next character is a `v` the version must follow it; declining the
optional `v` could not succeed either, since the version starts with a
digit, so no backtracking is needed. -/
def matchVQ : Matcher := fun l =>
  match l with
  | c :: cs =>
    if c.toLower = 'v' then
      match matchVersion24 cs with
      | some (m, r) => some (c :: m, r)
      | none => none
    else matchVersion24 l
  | [] => none

/-- The pattern `powered by (wordpress|joomla|drupal|magento) v?(\d+\.\d+(\.\d+)?(\.\d+)?)`. -/
def matchPoweredBy : Matcher :=
  mseq (litCI "powered by ") (mseq matchCms (mseq (litCI " ") matchVQ))

/-- The pattern `version (\d+\.\d+(\.\d+)?(\.\d+)?)`. -/
def matchVersionPat : Matcher := mseq (litCI "version ") matchVersion24

/-- The pattern `apache/(\d+\.\d+(\.\d+)?)`. -/
def matchApachePat : Matcher := mseq (litCI "apache/") matchVersion23

/-- The directory-listing header pattern
`Name\s+Last modified\s+Size\s+Description` (case-insensitive). -/
def matchDirHeader : Matcher :=
  mseq (litCI "name")
    (mseq matchWs
      (mseq (litCI "last modified")
        (mseq matchWs
          (mseq (litCI "size")
            (mseq matchWs (litCI "description"))))))

/-- Case-sensitive literal matcher, returning the rest of the input. -/
def matchLit : List Char → List Char → Option (List Char)
  | [], l => some l
  | _ :: _, [] => none
  | p :: ps, c :: cs => if c = p then matchLit ps cs else none

/-- The resource pattern `ver=(\d+\.\d+(\.\d+)?)` (case-sensitive, no
IGNORECASE flag in the source).  Returns capture group 1 (the version)
and the rest. -/
def matchVer : List Char → Option (List Char × List Char) := fun l =>
  match matchLit "ver=".data l with
  | some r => matchVersion23 r
  | none => none

/-- Python `re.search` semantics: try the matcher at each position from
the left and return the first success. -/
def searchM {α : Type} (m : List Char → Option α) : List Char → Option α
  | [] => m []
  | c :: cs =>
    match m (c :: cs) with
    | some a => some a
    | none => searchM m cs

/-- Occurrence of `nd` as a contiguous sublist of `hay`. -/
def hasSub (nd : List Char) : List Char → Bool
  | [] => nd.isPrefixOf []
  | c :: cs => nd.isPrefixOf (c :: cs) || hasSub nd cs

/-- String-level substring containment, used to state that a finding
references a URL or version. -/
def containsSub (hay nd : String) : Bool := hasSub nd.data hay.data

/-- Concatenation of the per-element finding lists, preserving order. -/
def listFlat {α β : Type} (f : α → List β) : List α → List β
  | [] => []
  | x :: xs => f x ++ listFlat f xs

/- ### The scanner itself, translated from src/security_scraper.py -/

/-- Common paths to check for admin panels or login pages (`ADMIN_PATHS`). -/
def ADMIN_PATHS : List String :=
  ["/admin", "/administrator", "/login", "/wp-admin", "/dashboard",
   "/cpanel", "/phpmyadmin", "/webmail", "/user/login", "/panel"]

/-- Split a character list at the first occurrence of `sep`, returning
the part before and the part after the separator. -/
def breakSub (sep : List Char) : List Char → Option (List Char × List Char)
  | [] => if sep.isPrefixOf ([] : List Char) then some ([], []) else none
  | c :: cs =>
    if sep.isPrefixOf (c :: cs) then some ([], (c :: cs).drop sep.length)
    else
      match breakSub sep cs with
      | some (a, b) => some (c :: a, b)
      | none => none

/-- Model of `urllib.parse.urljoin(base, path)` for the shapes the scanner
uses: `path` is an absolute path (starts with a slash), so when `base`
has the form `scheme://netloc...` the result is the base origin with the
path replacing everything after the netloc; a base without `://` keeps
only the path. -/
def urljoin (base path : String) : String :=
  match breakSub "://".data base.data with
  | some (scheme, rest) =>
    let netloc := rest.takeWhile (fun c => c ≠ '/' && c ≠ '?' && c ≠ '#')
    String.mk (scheme ++ "://".data ++ netloc ++ path.data)
  | none => path

/-- Translation of `fetch_url_content`: a transport failure returns
`None`, and `response.raise_for_status()` turns any 4xx or 5xx status
into `None` as well. -/
def fetch_url_content (transport : Transport) (url : String) : Option Response :=
  match transport url with
  | none => none
  | some r => if 400 ≤ r.status_code ∧ r.status_code < 600 then none else some r

/-- Translation of `check_open_directory`: false without a response;
otherwise true when the title (lowercased) contains "index of /", or some
text node matches the case-insensitive regex `Index of /`, or some `pre`
element's string matches the directory-header regex. -/
def check_open_directory (response : Option Response) : Bool :=
  match response with
  | none => false
  | some r =>
    let soup := r.body
    if (match soup.title with
        | some t => hasSub "index of /".data (t.data.map Char.toLower)
        | none => false) then true
    else if soup.strings.any (fun s => (searchM (matchLitCI "index of /".data) s.data).isSome)
        || soup.preStrings.any (fun s => (searchM matchDirHeader s.data).isSome) then true
    else false

/-- First block of `check_outdated_software`: the generator meta tag,
provided it exists and carries a `content` attribute. -/
def metaFinding (soup : Soup) : List String :=
  match soup.meta_generator with
  | some (some c) => ["Potential software identified via meta tag: " ++ c]
  | _ => []

/-- The ordered footer text patterns of `check_outdated_software`. -/
def footer_text_patterns : List Matcher :=
  [matchPoweredBy, matchVersionPat, matchApachePat]

/-- Second block of `check_outdated_software`: each footer pattern is
searched (IGNORECASE) in the full page text; a match appends one finding
carrying the full matched text. -/
def footerFindings (soup : Soup) : List String :=
  footer_text_patterns.foldl
    (fun acc pat =>
      match searchM pat soup.text.data with
      | some (m, _) => acc ++ ["Potential software version found in text: " ++ String.mk m]
      | none => acc) []

/-- Python `link.get('src') or link.get('href')` followed by the truthiness
test `if src:` — an empty string counts as absent. -/
def effSrc (e : ResElem) : Option String :=
  let src := match e.src with
    | some s => if s = "" then e.href else some s
    | none => e.href
  match src with
  | some s => if s = "" then none else some s
  | none => none

/-- Per-element part of the third block of `check_outdated_software`:
search the effective src/href value for the `ver=` pattern and report the
URL together with capture group 1. -/
def resourceFinding (e : ResElem) : List String :=
  match effSrc e with
  | some s =>
    match searchM matchVer s.data with
    | some (v, _) =>
      ["Potential version parameter in resource URL: " ++ s ++ " (version: " ++ String.mk v ++ ")"]
    | none => []
  | none => []

/-- Third block of `check_outdated_software`: every script/link element in
document order. -/
def resourceFindings (soup : Soup) : List String :=
  soup.resources.foldl (fun acc e => acc ++ resourceFinding e) []

/-- Translation of `check_outdated_software`: the three blocks in source
order, accumulated into one findings list. -/
def check_outdated_software (soup : Soup) : List String :=
  metaFinding soup ++ footerFindings soup ++ resourceFindings soup

/-- Loop body of `check_exposed_admin_panels`: join the path to the base
URL, fetch it, and append the joined URL when the fetch succeeded with
status code exactly 200; a failed fetch leaves the accumulator unchanged. -/
def panelStep (transport : Transport) (base_url : String) (acc : List String) (path : String) :
    List String :=
  let full_url := urljoin base_url path
  match fetch_url_content transport full_url with
  | some r => if r.status_code = 200 then acc ++ [full_url] else acc
  | none => acc

/-- Translation of `check_exposed_admin_panels`: for each admin path in
order, run `panelStep`, starting from the empty list. -/
def check_exposed_admin_panels (transport : Transport) (base_url : String) : List String :=
  ADMIN_PATHS.foldl (panelStep transport base_url) []

/-- The condition under which a probed URL is recorded as exposed: its
fetch succeeded (no exception, no 4xx/5xx) and the status code is
exactly 200. -/
def panelPred (transport : Transport) (u : String) : Bool :=
  match fetch_url_content transport u with
  | some r => r.status_code == 200
  | none => false

/-- The findings sub-dictionary of a scan report. -/
structure Findings where
  open_directory : Bool
  outdated_software_indicators : List String
  exposed_admin_panels : List String
  general_info : List String
deriving DecidableEq

/-- The scan report dictionary. -/
structure ScanReport where
  target_url : String
  status : String
  findings : Findings
  errors : List String
deriving DecidableEq

/-- Translation of `security_scan_website`: build the report with status
"Incomplete", fetch the main page (terminal failure on error), record
general info, run the three detectors in order, and finish "Completed". -/
def security_scan_website (transport : Transport) (target_url : String) : ScanReport :=
  let results : ScanReport :=
    { target_url := target_url
      status := "Incomplete"
      findings :=
        { open_directory := false
          outdated_software_indicators := []
          exposed_admin_panels := []
          general_info := [] }
      errors := [] }
  match fetch_url_content transport target_url with
  | none =>
    { results with
        errors := results.errors ++ ["Could not fetch main URL: " ++ target_url]
        status := "Failed" }
  | some main_response =>
    let soup := main_response.body
    let results :=
      { results with
          findings.general_info := results.findings.general_info ++
            ["Title: " ++ (match soup.title with | some t => t | none => "N/A"),
             "HTTP Status Code: " ++ toString main_response.status_code] }
    let results :=
      if check_open_directory (some main_response) then
        { results with
            findings.open_directory := true
            findings.general_info := results.findings.general_info ++
              ["Detected potential open directory listing on main URL."] }
      else results
    let osi := check_outdated_software soup
    let results :=
      if osi = [] then results
      else
        { results with
            findings.outdated_software_indicators :=
              results.findings.outdated_software_indicators ++ osi }
    let panels := check_exposed_admin_panels transport target_url
    let results :=
      if panels = [] then results
      else
        { results with
            findings.exposed_admin_panels :=
              results.findings.exposed_admin_panels ++ panels }
    { results with status := "Completed" }

/-- Model of Python `str.strip()`: drop whitespace from both ends. -/
def pyStrip (s : String) : String :=
  String.mk (((s.data.dropWhile isPyWs).reverse.dropWhile isPyWs).reverse)

/-- Model of Python `str.lower()` (ASCII case folding). -/
def pyLower (s : String) : String := String.mk (s.data.map Char.toLower)

/-- Model of Python `str.startswith(pre)`. -/
def pyStartsWith (s pre : String) : Bool := pre.data.isPrefixOf s.data

/-- Translation of the interactive loop body (lines 163-173 of the
source): the URL passed to `security_scan_website` for a given input
line, or `none` when the loop exits or re-prompts. -/
def loop_scanned_url (line : String) : Option String :=
  let url_input := pyStrip line
  if pyLower url_input = "exit" then none
  else if url_input = "" then none
  else if pyStartsWith url_input "http://" || pyStartsWith url_input "https://" then
    some url_input
  else some ("https://" ++ url_input)

/-- A document with no content at all, for concrete scan instances. -/
def emptySoup : Soup :=
  { title := none, strings := [], preStrings := [], meta_generator := none,
    text := "", resources := [] }

/-- A plain successful response used in concrete scan instances. -/
def demoResp : Response := { status_code := 200, body := emptySoup }

/-- A transport that answers every request with `demoResp`. -/
def demoTransport : Transport := fun _ => some demoResp

/-- A transport on which every request fails. -/
def failTransport : Transport := fun _ => none

/-- A transport that differs from `failTransport` only on a URL the
scanner never requests when scanning `https://a`. -/
def failTransportOff : Transport := fun url => if url = "zzz" then some demoResp else none

/-- One finding of the footer-pattern loop, from one search result. -/
def optFooterFinding (o : Option (List Char × List Char)) : List String :=
  match o with
  | some (m, _) => ["Potential software version found in text: " ++ String.mk m]
  | none => []

/-- Modelled from the claim wording for C5: a version of one-to-four
dot-separated numeric components, `\d+(\.\d+)?(\.\d+)?(\.\d+)?`.  The
source's patterns require at least two components instead. -/
def matchVersion14 : Matcher := fun l =>
  match matchNum l with
  | none => none
  | some (a, r1) =>
    let p2 := matchOptDotNum r1
    let p3 := matchOptDotNum p2.2
    let p4 := matchOptDotNum p3.2
    some (a ++ p2.1 ++ p3.1 ++ p4.1, p4.2)

/-- Modelled from the claim wording for C5: the generic version pattern
with a one-to-four component version. -/
def specVersionPat : Matcher := mseq (litCI "version ") matchVersion14

/-- Modelled from the claim wording for C5: the apache pattern with a
one-to-four component version (the source allows only two to three). -/
def specApachePat : Matcher := mseq (litCI "apache/") matchVersion14

/-- Helper for the spec-side notion of "the input has a scheme" in C8:
rest of an RFC 3986 scheme after its leading letter. -/
def schemeTail : List Char → Bool
  | [] => false
  | c :: cs =>
    if c = ':' then true
    else (c.isAlpha || c.isDigit || c = '+' || c = '-' || c = '.') && schemeTail cs

/-- Modelled from the spec: "prepend `https://` if missing a scheme" —
an input "has a scheme" when it begins with an RFC 3986 scheme, a letter
followed by letters, digits, `+`, `-` or `.`, terminated by a colon. -/
def has_scheme (s : String) : Bool :=
  match s.data with
  | c :: cs => c.isAlpha && schemeTail cs
  | [] => false

/-- A document whose title is an open-directory indicator (C3's example). -/
def titleSoup : Soup :=
  { title := some "Index of /test", strings := ["Index of /test"], preStrings := [],
    meta_generator := none, text := "Index of /test", resources := [] }

/-- Response carrying `titleSoup`. -/
def titleResp : Response := { status_code := 200, body := titleSoup }

/-- A document carrying only a WordPress generator meta tag (C4's example). -/
def doc4 : Soup :=
  { title := none, strings := [], preStrings := [],
    meta_generator := some (some "WordPress 5.8"), text := "", resources := [] }

/-- A document whose text exercises the version-component bounds of the
footer patterns (C5's counterexample). -/
def doc5 : Soup :=
  { title := none, strings := [], preStrings := [], meta_generator := none,
    text := "version 7 apache/1.2.3.4", resources := [] }

/-- A document carrying one versioned script resource (C6's example). -/
def doc6 : Soup :=
  { title := none, strings := [], preStrings := [], meta_generator := none,
    text := "", resources := [{ src := some "/wp-includes/x.js?ver=5.8.1", href := none }] }

/- ### Substring helper lemmas -/

theorem strData_append (a b : String) : (a ++ b).data = a.data ++ b.data := by
  cases a; cases b; rfl

theorem isPrefixOf_append_self (l t : List Char) : l.isPrefixOf (l ++ t) = true := by
  induction l with
  | nil => simp [List.isPrefixOf]
  | cons c cs ih => simp [List.isPrefixOf, ih]

theorem hasSub_of_isPre (nd hay : List Char) (h : nd.isPrefixOf hay = true) :
    hasSub nd hay = true := by
  cases hay with
  | nil => simpa [hasSub] using h
  | cons c cs => simp [hasSub, h]

theorem hasSub_append_left (nd x y : List Char) (h : hasSub nd y = true) :
    hasSub nd (x ++ y) = true := by
  induction x with
  | nil => simpa using h
  | cons c cs ih => simp [hasSub, ih]

theorem hasSub_infix (x b z : List Char) : hasSub b (x ++ (b ++ z)) = true :=
  hasSub_append_left b x (b ++ z) (hasSub_of_isPre b (b ++ z) (isPrefixOf_append_self b z))

theorem containsSub_append_right (a b : String) : containsSub (a ++ b) b = true := by
  have h := hasSub_infix a.data b.data []
  simpa [containsSub, strData_append] using h


/- ### Scan pipeline helper lemmas -/

theorem aux_scan_success (t : Transport) (url : String) (r : Response)
    (hf : fetch_url_content t url = some r) :
    security_scan_website t url =
      { target_url := url
        status := "Completed"
        findings :=
          { open_directory := check_open_directory (some r)
            outdated_software_indicators := check_outdated_software r.body
            exposed_admin_panels := check_exposed_admin_panels t url
            general_info :=
              ["Title: " ++ (match r.body.title with | some v => v | none => "N/A"),
               "HTTP Status Code: " ++ toString r.status_code] ++
              (if check_open_directory (some r) then
                 ["Detected potential open directory listing on main URL."] else []) }
        errors := [] } := by
  by_cases hod : check_open_directory (some r) = true <;>
    by_cases hosi : check_outdated_software r.body = [] <;>
      by_cases hp : check_exposed_admin_panels t url = [] <;>
        simp [security_scan_website, hf, hod, hosi, hp]

/-- C1: a failed main-page fetch is terminal: the report has status
"Failed", its error list is exactly one message referencing the target
URL, every finding field keeps its default value (so no detection stage
contributed anything), and fetch failure is exactly a transport failure
or an HTTP status in the 4xx/5xx range. -/
theorem scan_failed_fetch_terminal (t : Transport) (url : String)
    (h : fetch_url_content t url = none) :
    security_scan_website t url =
      { target_url := url
        status := "Failed"
        findings :=
          { open_directory := false, outdated_software_indicators := [],
            exposed_admin_panels := [], general_info := [] }
        errors := ["Could not fetch main URL: " ++ url] }
    ∧ containsSub ("Could not fetch main URL: " ++ url) url = true
    ∧ (fetch_url_content t url = none ↔
        t url = none ∨ ∃ r, t url = some r ∧ 400 ≤ r.status_code ∧ r.status_code < 600) := by
  refine ⟨?_, ?_, ?_⟩
  · simp [security_scan_website, h]
  · exact containsSub_append_right _ url
  · unfold fetch_url_content
    cases ht : t url with
    | none => simp
    | some r =>
      by_cases hr : 400 ≤ r.status_code ∧ r.status_code < 600
      · simp only [hr, if_true]
        exact ⟨fun _ => Or.inr ⟨r, rfl, hr⟩, fun _ => rfl⟩
      · simp [hr]

theorem scan_failed_fetch_terminal_witness :
    security_scan_website failTransport "https://example.com" =
      { target_url := "https://example.com"
        status := "Failed"
        findings :=
          { open_directory := false, outdated_software_indicators := [],
            exposed_admin_panels := [], general_info := [] }
        errors := ["Could not fetch main URL: " ++ "https://example.com"] }
    ∧ containsSub ("Could not fetch main URL: " ++ "https://example.com") "https://example.com" = true
    ∧ (fetch_url_content failTransport "https://example.com" = none ↔
        failTransport "https://example.com" = none ∨
          ∃ r, failTransport "https://example.com" = some r ∧
            400 ≤ r.status_code ∧ r.status_code < 600) :=
  scan_failed_fetch_terminal failTransport "https://example.com" rfl

/-- C10: the report's error list is empty exactly when its status is
"Completed", non-empty exactly when its status is "Failed", and the
target_url field always carries the input URL unchanged. -/
theorem errors_iff_status (t : Transport) (url : String) :
    ((security_scan_website t url).errors = [] ↔
      (security_scan_website t url).status = "Completed")
    ∧ ((security_scan_website t url).errors ≠ [] ↔
      (security_scan_website t url).status = "Failed")
    ∧ (security_scan_website t url).target_url = url := by
  cases hf : fetch_url_content t url with
  | none =>
    refine ⟨?_, ?_, ?_⟩ <;> simp [security_scan_website, hf]
  | some r =>
    have hs := aux_scan_success t url r hf
    refine ⟨?_, ?_, ?_⟩ <;> rw [hs] <;> simp

theorem errors_iff_status_witness :
    (security_scan_website failTransport "https://example.com").status = "Failed" :=
  (errors_iff_status failTransport "https://example.com").2.1.mp (by decide)

/-- C7: the returned status is never "Incomplete": it is "Failed" exactly
when the main fetch fails, and on success the report is the one built by
recording general info, the directory-listing check, the software-version
check and the admin-path probe, in that order, with status "Completed". -/
theorem scan_status_machine (t : Transport) (url : String) :
    ((security_scan_website t url).status = "Failed" ∨
      (security_scan_website t url).status = "Completed")
    ∧ ((security_scan_website t url).status = "Failed" ↔ fetch_url_content t url = none)
    ∧ (∀ r : Response, fetch_url_content t url = some r →
        security_scan_website t url =
          { target_url := url
            status := "Completed"
            findings :=
              { open_directory := check_open_directory (some r)
                outdated_software_indicators := check_outdated_software r.body
                exposed_admin_panels := check_exposed_admin_panels t url
                general_info :=
                  ["Title: " ++ (match r.body.title with | some v => v | none => "N/A"),
                   "HTTP Status Code: " ++ toString r.status_code] ++
                  (if check_open_directory (some r) then
                     ["Detected potential open directory listing on main URL."] else []) }
            errors := [] }) := by
  cases hf : fetch_url_content t url with
  | none =>
    refine ⟨Or.inl ?_, ?_, ?_⟩
    · simp [security_scan_website, hf]
    · simp [security_scan_website, hf]
    · intro r hr
      exact Option.noConfusion hr
  | some r =>
    have hs := aux_scan_success t url r hf
    refine ⟨Or.inr ?_, ?_, ?_⟩
    · rw [hs]
    · rw [hs]
      constructor
      · intro h
        exact absurd (show ("Completed" : String) = "Failed" from h) (by decide)
      · intro h
        exact Option.noConfusion h
    · intro r' hr'
      have hrr : r' = r := (Option.some.inj hr').symm
      subst hrr
      exact hs

theorem scan_status_machine_witness :
    security_scan_website demoTransport "https://example.org" =
      { target_url := "https://example.org"
        status := "Completed"
        findings :=
          { open_directory := check_open_directory (some demoResp)
            outdated_software_indicators := check_outdated_software demoResp.body
            exposed_admin_panels := check_exposed_admin_panels demoTransport "https://example.org"
            general_info :=
              ["Title: " ++ (match demoResp.body.title with | some v => v | none => "N/A"),
               "HTTP Status Code: " ++ toString demoResp.status_code] ++
              (if check_open_directory (some demoResp) then
                 ["Detected potential open directory listing on main URL."] else []) }
        errors := [] } :=
  (scan_status_machine demoTransport "https://example.org").2.2 demoResp (by decide)

/- ### Admin-path prober lemmas -/

theorem aux_panels_filter (t : Transport) (base : String) :
    ∀ (ps : List String) (acc : List String),
      ps.foldl (panelStep t base) acc =
        acc ++ (ps.map (fun p => urljoin base p)).filter (panelPred t) := by
  intro ps
  induction ps with
  | nil => intro acc; simp
  | cons p ps ih =>
    intro acc
    rw [List.foldl_cons, ih]
    cases hf : fetch_url_content t (urljoin base p) with
    | none => simp [panelStep, panelPred, hf, List.filter_cons]
    | some r =>
      by_cases h200 : r.status_code = 200
      · simp [panelStep, panelPred, hf, h200, List.filter_cons]
      · simp [panelStep, panelPred, hf, h200, List.filter_cons]

theorem aux_panels_congr (t1 t2 : Transport) (base : String) :
    ∀ (ps : List String) (acc : List String),
      (∀ p ∈ ps, t1 (urljoin base p) = t2 (urljoin base p)) →
      ps.foldl (panelStep t1 base) acc = ps.foldl (panelStep t2 base) acc := by
  intro ps
  induction ps with
  | nil => intro acc _; rfl
  | cons p ps ih =>
    intro acc h
    rw [List.foldl_cons, List.foldl_cons]
    have hp : t1 (urljoin base p) = t2 (urljoin base p) := h p (List.mem_cons_self p ps)
    have hstep : panelStep t1 base acc p = panelStep t2 base acc p := by
      simp [panelStep, fetch_url_content, hp]
    rw [hstep]
    exact ih _ (fun q hq => h q (List.mem_cons_of_mem p hq))

/-- C2: the prober's output is exactly the in-order filter of the
URL-joined probe list by "fetch succeeded with status exactly 200", and
no probe ever contributes to the report's error list (the error list
depends only on the main fetch). -/
theorem admin_prober_filter_spec (t : Transport) (base : String) :
    check_exposed_admin_panels t base =
      (ADMIN_PATHS.map (fun p => urljoin base p)).filter (panelPred t)
    ∧ (security_scan_website t base).errors =
        (if (fetch_url_content t base).isSome then ([] : List String)
         else ["Could not fetch main URL: " ++ base]) := by
  constructor
  · have h := aux_panels_filter t base ADMIN_PATHS []
    simpa [check_exposed_admin_panels] using h
  · cases hf : fetch_url_content t base with
    | none => simp [security_scan_website, hf]
    | some r =>
      rw [aux_scan_success t base r hf]
      simp [hf]

/-- C9: two scans against transports that answer identically on every URL
the pipeline requests (the main page and the ten probe URLs) produce
structurally identical reports. -/
theorem scan_deterministic_transport (t1 t2 : Transport) (url : String)
    (h1 : t1 url = t2 url)
    (h2 : ∀ p ∈ ADMIN_PATHS, t1 (urljoin url p) = t2 (urljoin url p)) :
    security_scan_website t1 url = security_scan_website t2 url := by
  have hf : fetch_url_content t1 url = fetch_url_content t2 url := by
    simp [fetch_url_content, h1]
  have hp : check_exposed_admin_panels t1 url = check_exposed_admin_panels t2 url :=
    aux_panels_congr t1 t2 url ADMIN_PATHS [] h2
  simp only [security_scan_website, hf, hp]

theorem scan_deterministic_transport_witness :
    security_scan_website failTransport "https://a" =
      security_scan_website failTransportOff "https://a" :=
  scan_deterministic_transport failTransport failTransportOff "https://a"
    (by decide) (by decide)

/- ### Case-insensitive literal search equals lowered substring containment -/

theorem aux_matchLitCI_isSome (pat : List Char) :
    ∀ l : List Char, (matchLitCI pat l).isSome = pat.isPrefixOf (l.map Char.toLower) := by
  induction pat with
  | nil => intro l; simp [matchLitCI, List.isPrefixOf]
  | cons p ps ih =>
    intro l
    cases l with
    | nil => simp [matchLitCI, List.isPrefixOf]
    | cons c cs =>
      by_cases h : c.toLower = p
      · have hbeq : (p == c.toLower) = true := by rw [h]; exact beq_self_eq_true p
        cases hm : matchLitCI ps cs with
        | none =>
          have hih := ih cs
          rw [hm] at hih
          simp [matchLitCI, h, hm, List.isPrefixOf, hbeq, ← hih]
        | some pr =>
          have hih := ih cs
          rw [hm] at hih
          simp [matchLitCI, h, hm, List.isPrefixOf, hbeq, ← hih]
      · have hbeq : (p == c.toLower) = false :=
          beq_eq_false_iff_ne.mpr (fun he => h he.symm)
        simp [matchLitCI, h, List.isPrefixOf, hbeq]

theorem aux_searchLitCI (pat : List Char) :
    ∀ l : List Char, (searchM (matchLitCI pat) l).isSome = hasSub pat (l.map Char.toLower) := by
  intro l
  induction l with
  | nil => simpa [searchM, hasSub] using aux_matchLitCI_isSome pat []
  | cons c cs ih =>
    cases hm : matchLitCI pat (c :: cs) with
    | some a =>
      have hx : pat.isPrefixOf (List.map Char.toLower (c :: cs)) = true := by
        rw [← aux_matchLitCI_isSome, hm]
        rfl
      rw [List.map_cons] at hx
      simp only [searchM, hm, Option.isSome_some, List.map_cons, hasSub, hx, Bool.true_or]
    | none =>
      have hx : pat.isPrefixOf (List.map Char.toLower (c :: cs)) = false := by
        rw [← aux_matchLitCI_isSome, hm]
        rfl
      rw [List.map_cons] at hx
      simp only [searchM, hm, List.map_cons, hasSub, hx, Bool.false_or]
      exact ih

/-- C3: the directory-listing detector returns true exactly when the
title, lowercased, contains "index of /", or some text node contains the
case-insensitive pattern "Index of /", or some pre element's string
matches the whitespace-flexible header pattern; it returns false without
a response; and it returns true on a document titled "Index of /test". -/
theorem open_directory_detector_spec :
    (∀ r : Response,
      check_open_directory (some r) =
        ((match r.body.title with
          | some ttl => hasSub "index of /".data (ttl.data.map Char.toLower)
          | none => false)
         || r.body.strings.any (fun s => hasSub "index of /".data (s.data.map Char.toLower))
         || r.body.preStrings.any (fun s => (searchM matchDirHeader s.data).isSome)))
    ∧ check_open_directory none = false
    ∧ check_open_directory (some titleResp) = true := by
  refine ⟨?_, rfl, by decide⟩
  intro r
  have hstr : ∀ s : String,
      (searchM (matchLitCI "index of /".data) s.data).isSome
        = hasSub "index of /".data (s.data.map Char.toLower) :=
    fun s => aux_searchLitCI "index of /".data s.data
  simp only [check_open_directory, hstr]
  by_cases hA : (match r.body.title with
      | some ttl => hasSub "index of /".data (ttl.data.map Char.toLower)
      | none => false) = true
  · simp [hA]
  · cases hB : (r.body.strings.any (fun s => hasSub "index of /".data (s.data.map Char.toLower))
        || r.body.preStrings.any (fun s => (searchM matchDirHeader s.data).isSome)) with
    | true =>
      rw [Bool.not_eq_true] at hA
      simp [hA, hB, Bool.or_assoc]
    | false =>
      rw [Bool.not_eq_true] at hA
      simp [hA, hB, Bool.or_assoc]

/-- C4: when the document carries a generator meta tag with a content
attribute, the detector's first finding quotes that content verbatim and
precedes every footer-pattern and resource-URL finding. -/
theorem generator_meta_finding_first (soup : Soup) (c : String)
    (h : soup.meta_generator = some (some c)) :
    check_outdated_software soup =
      ("Potential software identified via meta tag: " ++ c) ::
        (footerFindings soup ++ resourceFindings soup)
    ∧ containsSub ("Potential software identified via meta tag: " ++ c) c = true := by
  constructor
  · simp [check_outdated_software, metaFinding, h]
  · exact containsSub_append_right _ c

theorem generator_meta_finding_first_witness :
    (check_outdated_software doc4 =
      ("Potential software identified via meta tag: " ++ "WordPress 5.8") ::
        (footerFindings doc4 ++ resourceFindings doc4)
    ∧ containsSub ("Potential software identified via meta tag: " ++ "WordPress 5.8")
        "WordPress 5.8" = true)
    ∧ (check_outdated_software doc4).any (fun f => containsSub f "WordPress 5.8") = true :=
  ⟨generator_meta_finding_first doc4 "WordPress 5.8" rfl, by decide⟩

/- ### Resource-findings flattening lemmas -/

theorem aux_resourceFindings_flat (soup : Soup) :
    resourceFindings soup = listFlat resourceFinding soup.resources := by
  have H : ∀ (l : List ResElem) (acc : List String),
      l.foldl (fun a e => a ++ resourceFinding e) acc = acc ++ listFlat resourceFinding l := by
    intro l
    induction l with
    | nil => intro acc; simp [listFlat]
    | cons e es ih =>
      intro acc
      simp [List.foldl_cons, listFlat, ih, List.append_assoc]
  simpa [resourceFindings] using H soup.resources []

theorem aux_mem_listFlat {α β : Type} (f : α → List β) (l : List α) (a : α) (b : β)
    (ha : a ∈ l) (hb : b ∈ f a) : b ∈ listFlat f l := by
  induction l with
  | nil => cases ha
  | cons x xs ih =>
    cases ha with
    | head =>
      simp only [listFlat, List.mem_append]
      exact Or.inl hb
    | tail _ hx =>
      simp only [listFlat, List.mem_append]
      exact Or.inr (ih hx)

/-- C6: for every script/link element whose effective src/href value
matches the `ver=` pattern, the detector's findings include an entry that
references both the resource URL and the extracted version. -/
theorem resource_version_finding (soup : Soup) (e : ResElem) (s : String)
    (g : List Char × List Char)
    (he : e ∈ soup.resources) (hs : effSrc e = some s)
    (hm : searchM matchVer s.data = some g) :
    ("Potential version parameter in resource URL: " ++ s ++ " (version: " ++
        String.mk g.1 ++ ")") ∈ check_outdated_software soup
    ∧ containsSub ("Potential version parameter in resource URL: " ++ s ++ " (version: " ++
        String.mk g.1 ++ ")") s = true
    ∧ containsSub ("Potential version parameter in resource URL: " ++ s ++ " (version: " ++
        String.mk g.1 ++ ")") (String.mk g.1) = true := by
  have hfind : resourceFinding e =
      ["Potential version parameter in resource URL: " ++ s ++ " (version: " ++
        String.mk g.1 ++ ")"] := by
    cases g with
    | mk v rest => simp [resourceFinding, hs, hm]
  refine ⟨?_, ?_, ?_⟩
  · have hmem : ("Potential version parameter in resource URL: " ++ s ++ " (version: " ++
        String.mk g.1 ++ ")") ∈ resourceFindings soup := by
      rw [aux_resourceFindings_flat]
      exact aux_mem_listFlat resourceFinding soup.resources e _ he
        (by rw [hfind]; exact List.mem_singleton.mpr rfl)
    simp only [check_outdated_software, List.mem_append]
    exact Or.inr hmem
  · have hdata : ("Potential version parameter in resource URL: " ++ s ++ " (version: " ++
        String.mk g.1 ++ ")").data =
        "Potential version parameter in resource URL: ".data ++
          (s.data ++ (" (version: ".data ++ (g.1 ++ ")".data))) := by
      simp [strData_append, List.append_assoc]
    show hasSub s.data _ = true
    rw [hdata]
    exact hasSub_infix _ _ _
  · have hdata : ("Potential version parameter in resource URL: " ++ s ++ " (version: " ++
        String.mk g.1 ++ ")").data =
        "Potential version parameter in resource URL: ".data ++
          (s.data ++ (" (version: ".data ++ (g.1 ++ ")".data))) := by
      simp [strData_append, List.append_assoc]
    show hasSub (String.mk g.1).data _ = true
    rw [hdata]
    have h0 : hasSub g.1 (g.1 ++ ")".data) = true :=
      hasSub_of_isPre _ _ (isPrefixOf_append_self _ _)
    have h1 := hasSub_append_left g.1 " (version: ".data _ h0
    have h2 := hasSub_append_left g.1 s.data _ h1
    exact hasSub_append_left g.1 "Potential version parameter in resource URL: ".data _ h2

theorem resource_version_finding_witness :
    ("Potential version parameter in resource URL: " ++ "/wp-includes/x.js?ver=5.8.1" ++
        " (version: " ++ String.mk ("5.8.1".data, ([] : List Char)).1 ++ ")")
      ∈ check_outdated_software doc6
    ∧ containsSub ("Potential version parameter in resource URL: " ++ "/wp-includes/x.js?ver=5.8.1" ++
        " (version: " ++ String.mk ("5.8.1".data, ([] : List Char)).1 ++ ")")
        "/wp-includes/x.js?ver=5.8.1" = true
    ∧ containsSub ("Potential version parameter in resource URL: " ++ "/wp-includes/x.js?ver=5.8.1" ++
        " (version: " ++ String.mk ("5.8.1".data, ([] : List Char)).1 ++ ")")
        (String.mk ("5.8.1".data, ([] : List Char)).1) = true :=
  resource_version_finding doc6
    { src := some "/wp-includes/x.js?ver=5.8.1", href := none }
    "/wp-includes/x.js?ver=5.8.1" ("5.8.1".data, []) (by decide) (by decide) (by decide)

/-- C5 counterexample: the claim allows one-to-four version components
for all three footer patterns, but on a page text containing "version 7"
and "apache/1.2.3.4" the claim-worded patterns match "version 7" and the
full "apache/1.2.3.4", while the code emits a single finding whose
matched text is only "apache/1.2.3" and no finding for "version 7". -/
theorem footer_version_pattern_counterexample :
    searchM specVersionPat doc5.text.data =
      some ("version 7".data, " apache/1.2.3.4".data)
    ∧ searchM specApachePat doc5.text.data = some ("apache/1.2.3.4".data, [])
    ∧ check_outdated_software doc5 =
        ["Potential software version found in text: apache/1.2.3"]
    ∧ containsSub "Potential software version found in text: apache/1.2.3" "1.2.3.4" = false
    ∧ (check_outdated_software doc5).any (fun f => containsSub f "version 7") = false := by
  refine ⟨by decide, by decide, by decide, by decide, by decide⟩

/-- C5 amended: the footer check tries the three patterns in order on the
full page text; each pattern that matches contributes exactly one finding
carrying the full matched text of its first (leftmost) occurrence, with
two-to-four version components for the powered-by and generic patterns
and two-to-three for the apache pattern; and searches really return the
leftmost occurrence. -/
theorem footer_version_patterns_amended (soup : Soup) :
    (footerFindings soup =
      optFooterFinding (searchM matchPoweredBy soup.text.data) ++
        optFooterFinding (searchM matchVersionPat soup.text.data) ++
        optFooterFinding (searchM matchApachePat soup.text.data))
    ∧ (∀ (m : List Char → Option (List Char × List Char)) (l : List Char)
          (g : List Char × List Char),
        searchM m l = some g →
        ∃ n, m (l.drop n) = some g ∧ ∀ k, k < n → m (l.drop k) = none) := by
  constructor
  · rcases h1 : searchM matchPoweredBy soup.text.data with _ | ⟨m1, r1⟩ <;>
      rcases h2 : searchM matchVersionPat soup.text.data with _ | ⟨m2, r2⟩ <;>
        rcases h3 : searchM matchApachePat soup.text.data with _ | ⟨m3, r3⟩ <;>
          simp [footerFindings, footer_text_patterns, optFooterFinding, h1, h2, h3]
  · intro m l
    induction l with
    | nil =>
      intro g h
      exact ⟨0, by simpa [searchM] using h, fun k hk => absurd hk (Nat.not_lt_zero k)⟩
    | cons c cs ih =>
      intro g h
      cases hm : m (c :: cs) with
      | some a =>
        have hag : a = g := by
          rw [searchM, hm] at h
          exact Option.some.inj h
        refine ⟨0, ?_, fun k hk => absurd hk (Nat.not_lt_zero k)⟩
        rw [List.drop_zero, hm, hag]
      | none =>
        have h' : searchM m cs = some g := by
          rw [searchM, hm] at h
          exact h
        obtain ⟨n, hn1, hn2⟩ := ih g h'
        refine ⟨n + 1, by simpa using hn1, ?_⟩
        intro k hk
        cases k with
        | zero => simpa using hm
        | succ j =>
          have := hn2 j (by omega)
          simpa using this

theorem footer_version_patterns_amended_witness :
    (footerFindings doc5 =
      optFooterFinding (searchM matchPoweredBy doc5.text.data) ++
        optFooterFinding (searchM matchVersionPat doc5.text.data) ++
        optFooterFinding (searchM matchApachePat doc5.text.data))
    ∧ (∃ n, matchApachePat ("x apache/1.2".data.drop n) = some ("apache/1.2".data, [])
        ∧ ∀ k, k < n → matchApachePat ("x apache/1.2".data.drop k) = none) :=
  ⟨(footer_version_patterns_amended doc5).1,
    (footer_version_patterns_amended doc5).2 matchApachePat "x apache/1.2".data
      ("apache/1.2".data, []) (by decide)⟩

/-- C8 counterexample: "ftp://example.com" has a scheme, yet the loop
does not leave it unchanged - it prepends "https://", because the source
only tests for the literal "http://" and "https://" prefixes. -/
theorem scheme_normalization_counterexample :
    has_scheme "ftp://example.com" = true
    ∧ loop_scanned_url "ftp://example.com" = some ("https://" ++ "ftp://example.com")
    ∧ loop_scanned_url "ftp://example.com" ≠ some "ftp://example.com" := by
  refine ⟨by decide, by decide, by decide⟩

/-- C8 amended: for every input line whose stripped form is non-empty and
is not the (case-insensitive) exit command, the URL passed to the scan is
the stripped input unchanged when it starts with "http://" or "https://",
and "https://" prepended to it otherwise. -/
theorem scheme_normalization_amended (line : String)
    (h1 : pyStrip line ≠ "") (h2 : pyLower (pyStrip line) ≠ "exit") :
    loop_scanned_url line =
      some (if pyStartsWith (pyStrip line) "http://" || pyStartsWith (pyStrip line) "https://"
            then pyStrip line
            else "https://" ++ pyStrip line) := by
  simp only [loop_scanned_url]
  rw [if_neg h2, if_neg h1]
  by_cases h : (pyStartsWith (pyStrip line) "http://" ||
      pyStartsWith (pyStrip line) "https://") = true
  · rw [if_pos h, if_pos h]
  · rw [if_neg h, if_neg h]

theorem scheme_normalization_amended_witness :
    loop_scanned_url "example.com" =
      some (if pyStartsWith (pyStrip "example.com") "http://" ||
              pyStartsWith (pyStrip "example.com") "https://"
            then pyStrip "example.com"
            else "https://" ++ pyStrip "example.com")
    ∧ loop_scanned_url "example.com" = some "https://example.com"
    ∧ loop_scanned_url "http://example.com" = some "http://example.com" :=
  ⟨scheme_normalization_amended "example.com" (by decide) (by decide), by decide, by decide⟩
